import Mathlib

/-!
Shallow embedding of the pycamerad repository core: the multi-host command
broadcast engine (`Interface.__send_command` in src/interface.py), the session
state it mutates (`CameraInfo` in src/camera_info.py), the Operation-layer
setters (`set_mode`, `set_type`, `set_basename`, `set_power`, `expose`,
`set_param`), and the magic-board bit-register encoder (`__make_bitstring`,
`__write_bits`).  Every definition is translated from the source; host
responses, which in the source arrive over sockets, are abstracted as explicit
per-host inputs.
-/

namespace Pycamerad

/-- Python whitespace characters relevant to `str.split()` for ASCII input. -/
def isPyWhitespace (c : Char) : Bool :=
  c = ' ' || c = '\t' || c = '\n' || c = '\r' || c = '\x0b' || c = '\x0c'

/-- Worker for `pySplit`: accumulates the current token (reversed) in `acc`. -/
def pySplitAux : List Char → List Char → List (List Char)
  | [], acc => if acc = [] then [] else [acc.reverse]
  | c :: rest, acc =>
    if isPyWhitespace c then
      if acc = [] then pySplitAux rest []
      else acc.reverse :: pySplitAux rest []
    else pySplitAux rest (c :: acc)

/-- Python `str.split()` with no argument: split on runs of whitespace,
dropping empty tokens. -/
def pySplit (s : String) : List String :=
  (pySplitAux s.data []).map (fun l => String.mk l)

/-- Does `pat` occur at the head of `s`? -/
def matchAt : List Char → List Char → Bool
  | [], _ => true
  | _ :: _, [] => false
  | p :: ps, c :: cs => p = c && matchAt ps cs

/-- Does `pat` occur somewhere in `s`? -/
def hasSubstrL (pat : List Char) : List Char → Bool
  | [] => matchAt pat []
  | c :: cs => matchAt pat (c :: cs) || hasSubstrL pat cs

/-- Python `pat in s` substring test. -/
def containsSub (s pat : String) : Bool := hasSubstrL pat.data s.data

/-- ASCII lower-casing of one character (Python `str.lower` on ASCII). -/
def charLower (c : Char) : Char :=
  if 'A' ≤ c ∧ c ≤ 'Z' then Char.ofNat (c.toNat + 32) else c

/-- ASCII `str.lower()`. -/
def pyLower (s : String) : String := String.mk (s.data.map charLower)

/-- Python `"{0:0Nb}".format(n)`: binary digits of `n`, zero-padded on the
left to `width` characters. -/
def pyFormatB (width n : Nat) : String :=
  let ds := Nat.toDigits 2 n
  String.mk (List.replicate (width - ds.length) '0' ++ ds)

/-- Numeric value of a big-endian binary character string. -/
def bitsVal : List Char → Nat
  | [] => 0
  | c :: cs => (if c = '1' then 1 else 0) * 2 ^ cs.length + bitsVal cs

/-- Python `int(c)` for a single digit character. -/
def pyIntOfChar (c : Char) : Int := ((c.toNat - '0'.toNat : Nat) : Int)

/-- Command formatting in `__send_command`:
`command = " ".join(str(a) for a in arg_list) + endchar` with `endchar='\n'`. -/
def mkCommand (args : List String) : String :=
  String.intercalate " " args ++ "\n"

/-! ### The broadcast engine (`Interface.__send_command`, read/reduce phase)

The transmit phase (one thread per host, joined before any read) has no
effect on the returned value other than eliciting the hosts' replies, which
are modelled as explicit inputs: per host a list of received chunks followed
by what the read loop hits when the chunks run out (the 10 s `select` timeout
or a `select.error`). -/

/-- How the read loop for one host ends once no terminal chunk arrives. -/
inductive ReadEnd
  | timeout
  | selErr
deriving DecidableEq

/-- Abstracted socket input of one host during one broadcast. -/
structure HostInput where
  chunks : List String
  ending : ReadEnd
deriving DecidableEq

/-- The loop `if "DONE" in ret or "ERROR" in ret or "\n" in ret` condition:
a received chunk is terminal when it contains one of the markers. -/
def isTerminalChunk (s : String) : Bool :=
  containsSub s "DONE" || containsSub s "ERROR" || containsSub s "\n"

/-- The per-host read loop: chunks are read in order and dropped until one is
terminal, which becomes the whole message; if none arrives, a timeout appends
`"\n"` and a `select.error` leaves the message empty. -/
def readMessage (inp : HostInput) : List String :=
  match inp.chunks.find? (fun s => isTerminalChunk s) with
  | some s => [s]
  | none =>
    match inp.ending with
    | ReadEnd.timeout => ["\n"]
    | ReadEnd.selErr => []

/-- `returnvalue = dat[cam][0].split()[0]`: the first whitespace token of the
first message fragment; an empty message or a token-free fragment raises
`IndexError`, modelled as `Except.error`. -/
def hostToken (inp : HostInput) : Except Unit String :=
  match readMessage inp with
  | [] => Except.error ()
  | m :: _ =>
    match pySplit m with
    | [] => Except.error ()
    | t :: _ => Except.ok t

/-- `complete = "".join(dat[cam]).find("DONE") >= 0`: the host counts toward
`numokay` exactly when its message contains `"DONE"`. -/
def hostOkay (inp : HostInput) : Bool :=
  containsSub (String.join (readMessage inp)) "DONE"

/-- The nested loop over `returnlist` that sets `numcams = -1` when any two
return values differ. -/
def existsDiffer : List String → Bool
  | [] => false
  | x :: xs => xs.any (fun y => decide ¬ (x = y)) || existsDiffer xs

/-- The value of `returnvalue` after the read loop: overwritten on every
iteration, so the last host's token survives (empty string when none). -/
def lastToken : List String → String
  | [] => ""
  | [t] => t
  | _ :: t :: ts => lastToken (t :: ts)

/-- Sequential per-host token extraction, aborting at the first host whose
extraction raises (the exception propagates out of the whole call). -/
def mapExcept {α β : Type} (f : α → Except Unit β) : List α → Except Unit (List β)
  | [] => Except.ok []
  | a :: as =>
    match f a with
    | Except.error e => Except.error e
    | Except.ok b =>
      match mapExcept f as with
      | Except.error e => Except.error e
      | Except.ok bs => Except.ok (b :: bs)

/-- `numokay`: the number of hosts whose message contains `"DONE"`. -/
def okayCount (inputs : List HostInput) : Nat :=
  (inputs.filter (fun i => hostOkay i)).length

/-- Return value used by `__send_command`: either a single token, the list of
per-host tokens (on disagreement), or the empty string. -/
inductive SendRet
  | str (s : String)
  | toks (l : List String)
deriving DecidableEq

/-- The reduction at the end of `__send_command`: `numcams` becomes `-1` when
two return values differ; success requires `numcams == numokay`. -/
def reduceResult (inputs : List HostInput) (toks : List String) :
    Except Unit (Int × SendRet) :=
  let numokay : Int := (okayCount inputs : Int)
  let numcams : Int := if existsDiffer toks then (-1 : Int) else (inputs.length : Int)
  if numcams = numokay then Except.ok (0, SendRet.str (lastToken toks))
  else if numcams = (-1 : Int) then Except.ok (1, SendRet.toks toks)
  else Except.ok (1, SendRet.str "")

/-- `Interface.__send_command`, read/reduce phase, over abstracted host
inputs.  `Except.error` models a Python exception escaping the call. -/
def sendCommandModel (inputs : List HostInput) : Except Unit (Int × SendRet) :=
  if inputs.length = 0 then Except.ok (1, SendRet.str "")
  else
    match mapExcept hostToken inputs with
    | Except.error e => Except.error e
    | Except.ok toks => reduceResult inputs toks

/-! ### Session state (`CameraInfo` in src/camera_info.py) -/

/-- The `CameraInfo.TYPE` dictionary: image-type label to numeric code. -/
def TYPE : List (String × Nat) :=
  [("OBJECT", 0), ("BIAS", 1), ("DARK", 2), ("DOME_FLAT", 3), ("TWILIGHT_FLAT", 4),
   ("FOCUS", 5), ("POINTING", 6), ("TEST", 7), ("ILLUMINATION", 8), ("FRINGE", 9),
   ("SEEING", 10), ("OTHER", 11)]

/-- Dictionary lookup `TYPE[label]`, `none` for a missing key. -/
def typeLookup (s : String) : Option Nat :=
  (TYPE.find? (fun p => decide (p.1 = s))).map (fun p => p.2)

/-- The inverse dictionary `TYPE_NAME[code]`, `none` for a missing key. -/
def TYPE_NAME (v : Nat) : Option String :=
  (TYPE.find? (fun p => decide (p.2 = v))).map (fun p => p.1)

/-- The `CameraInfo` instance fields (src/camera_info.py `__init__`). -/
structure CameraInfo where
  interface : String
  mode : String
  imtype : Nat
  basename : String
  iterations : Int
  exptime : Int
deriving DecidableEq

/-- `CameraInfo()` with its default arguments. -/
def initCameraInfo : CameraInfo :=
  { interface := "archon", mode := "DEFAULT", imtype := (typeLookup "TEST").getD 0,
    basename := "", iterations := 1, exptime := 0 }

/-- `CameraInfo.get_type`: `TYPE_NAME[self.imtype]` (KeyError as `none`). -/
def caminfo_get_type (ci : CameraInfo) : Option String := TYPE_NAME ci.imtype

/-- `CameraInfo.set_type`: store the code for a known label, else error 1. -/
def caminfo_set_type (ci : CameraInfo) (imtype : String) : Int × CameraInfo :=
  match typeLookup imtype with
  | some v => (0, { ci with imtype := v })
  | none => (1, ci)

/-- `CameraInfo.set_mode`: any mode accepted, always returns 0. -/
def caminfo_set_mode (ci : CameraInfo) (mode_in : String) : Int × CameraInfo :=
  (0, { ci with mode := mode_in })

/-- `CameraInfo.set_exptime`: store when nonnegative, else error 1. -/
def caminfo_set_exptime (ci : CameraInfo) (exptime : Int) : Int × CameraInfo :=
  if 0 ≤ exptime then (0, { ci with exptime := exptime }) else (1, ci)

/-- `CameraInfo.set_basename`: unconditional store, always returns 0. -/
def caminfo_set_basename (ci : CameraInfo) (basename : String) : Int × CameraInfo :=
  (0, { ci with basename := basename })

/-! ### Operation layer (`Interface` methods in src/interface.py)

A state carries the `CameraInfo` instance plus the trace of command lines
handed to `__send_command`.  Broadcast outcomes are abstracted by an
environment `env` giving the error number of the k-th broadcast of the
session; the Operation-layer methods only ever consume
`__send_command(...)[0]`. -/

/-- Operation-layer state: session settings plus the broadcast trace. -/
structure OpState where
  caminfo : CameraInfo
  sent : List String
deriving DecidableEq

/-- A fresh `Interface`: default `CameraInfo`, nothing broadcast yet. -/
def initState : OpState := { caminfo := initCameraInfo, sent := [] }

/-- One call to `__send_command`: record the formatted command line and
return the environment's error number for this broadcast. -/
def doSend (env : Nat → Int) (s : OpState) (args : List String) : Int × OpState :=
  (env s.sent.length, { s with sent := s.sent ++ [mkCommand args] })

/-- `Interface.set_param`: broadcast `setp <param> <value>`. -/
def set_param (env : Nat → Int) (s : OpState) (param : String) (value : Int) :
    Int × OpState :=
  doSend env s ["setp", param, toString value]

/-- `Interface.set_mode`: broadcast `mode <mode_in>` when the mode changes
and commit to `CameraInfo` only on success; same mode is a silent success. -/
def set_mode (env : Nat → Int) (s : OpState) (mode_in : String) : Int × OpState :=
  if s.caminfo.mode ≠ mode_in then
    let r := doSend env s ["mode", mode_in]
    if r.1 = 0 then (r.1, { r.2 with caminfo := (caminfo_set_mode r.2.caminfo mode_in).2 })
    else r
  else (0, s)

/-- `Interface.set_type`: a backward-compatibility stub that only updates
`CameraInfo` (the broadcast is commented out in the source); the
`TYPE_NAME` lookup inside `get_type` can raise `KeyError` (`Except.error`). -/
def set_type (s : OpState) (imtype : String) : Except Unit (Int × OpState) :=
  match caminfo_get_type s.caminfo with
  | none => Except.error ()
  | some old_type =>
    if old_type ≠ imtype then
      let r := caminfo_set_type s.caminfo imtype
      Except.ok (r.1, { s with caminfo := r.2 })
    else Except.ok (0, s)

/-- `Interface.set_basename`: reject a name with no whitespace-split tokens,
otherwise store the new name in `CameraInfo` first and then broadcast
`basename <name>`; same name is a silent success. -/
def set_basename (env : Nat → Int) (s : OpState) (basename : String) : Int × OpState :=
  if (pySplit basename).length < 1 then (1, s)
  else
    if s.caminfo.basename ≠ basename then
      let r := caminfo_set_basename s.caminfo basename
      let s1 := { s with caminfo := r.2 }
      if r.1 = 0 then doSend env s1 ["basename", basename]
      else (r.1, s1)
    else (0, s)

/-- `Interface.set_power`: broadcast `POWERON`/`POWEROFF` for `"ON"`/`"OFF"`,
`None` (no error number) for anything else; no session state is consulted
or modified. -/
def set_power (env : Nat → Int) (s : OpState) (power : String) :
    Option Int × OpState :=
  if power = "ON" then
    let r := doSend env s ["POWERON"]
    (some r.1, r.2)
  else if power = "OFF" then
    let r := doSend env s ["POWEROFF"]
    (some r.1, r.2)
  else (none, s)

/-- `Interface.expose`: store the exposure time via
`CameraInfo.set_exptime` (its error is ignored), then broadcast
`expose <iterations>`. -/
def expose (env : Nat → Int) (s : OpState) (exptime iterations : Int) :
    Int × OpState :=
  let s1 := { s with caminfo := (caminfo_set_exptime s.caminfo exptime).2 }
  doSend env s1 ["expose", toString iterations]

/-! ### Magic-board bit-register encoder -/

/-- `Interface.__write_bits`: iterate the bitstring right to left and set the
`BitLevel` parameter to `int(bit) + 1` for each bit, ignoring errors. -/
def write_bits (env : Nat → Int) (s : OpState) (bitstring : String) : OpState :=
  bitstring.data.reverse.foldl
    (fun st c => (set_param env st "BitLevel" (pyIntOfChar c + 1)).2) s

/-- `Interface.__make_bitstring`: encode a `(name, chan)` identifier as a
fixed-width binary string; an unrecognized name degrades to `"0"`. -/
def make_bitstring (name : String) (chan : Int) : String :=
  if pyLower name = "driver" then pyFormatB 6 ((chan % 24).toNat)
  else if pyLower name = "dnl" then pyFormatB 6 24
  else if pyLower name = "hvlc" then pyFormatB 6 ((32 + chan % 24).toNat)
  else if pyLower name = "hvhc" then pyFormatB 6 ((56 + chan % 6).toNat)
  else if pyLower name = "adc" then pyFormatB 16 (2 ^ (chan % 16).toNat)
  else if pyLower name = "null" then
    (if chan = 16 then pyFormatB 16 0 else pyFormatB 6 25)
  else "0"

/-- Constant environment: every broadcast succeeds. -/
def env0 : Nat → Int := fun _ => 0

/-- Constant environment: every broadcast fails with error 1. -/
def env1 : Nat → Int := fun _ => 1

/-! ### Helper lemmas -/

/-- Splitting a run of whitespace with an empty accumulator yields no tokens. -/
theorem pySplitAux_ws (l : List Char) (h : ∀ c ∈ l, isPyWhitespace c = true) :
    pySplitAux l [] = [] := by
  induction l with
  | nil => rfl
  | cons c cs ih =>
    have hc : isPyWhitespace c = true := h c (List.mem_cons_self c cs)
    simp only [pySplitAux, hc, if_true, if_pos rfl]
    exact ih (fun c2 hc2 => h c2 (List.mem_cons_of_mem c hc2))

/-- Python `split()` of an all-whitespace string is empty. -/
theorem pySplit_ws (s : String) (h : ∀ c ∈ s.data, isPyWhitespace c = true) :
    pySplit s = [] := by
  unfold pySplit
  rw [pySplitAux_ws s.data h]
  rfl

/-- `mapExcept` preserves list length on success. -/
theorem mapExcept_length {α β : Type} (f : α → Except Unit β) (l : List α) :
    ∀ ts : List β, mapExcept f l = Except.ok ts → ts.length = l.length := by
  induction l with
  | nil =>
    intro ts h
    unfold mapExcept at h
    injection h with h2
    rw [← h2]
    rfl
  | cons a as ih =>
    intro ts h
    unfold mapExcept at h
    cases hf : f a with
    | error e => simp [hf] at h
    | ok b =>
      simp only [hf] at h
      cases hm : mapExcept f as with
      | error e => simp [hm] at h
      | ok bs =>
        simp only [hm, Except.ok.injEq] at h
        subst h
        simp [ih bs hm]

/-- The surviving `returnvalue` is one of the collected tokens. -/
theorem lastToken_mem (l : List String) (h : l ≠ []) : lastToken l ∈ l := by
  induction l with
  | nil => exact absurd rfl h
  | cons x xs ih =>
    cases xs with
    | nil => simp [lastToken]
    | cons y ys =>
      have hm := ih (by simp)
      simp only [lastToken]
      exact List.mem_cons_of_mem x hm

/-- When the pairwise scan finds no disagreement, all tokens are equal. -/
theorem existsDiffer_all_eq (l : List String) (h : existsDiffer l = false) :
    ∀ a ∈ l, ∀ b ∈ l, a = b := by
  induction l with
  | nil => intro a ha; exact absurd ha (List.not_mem_nil a)
  | cons x xs ih =>
    simp only [existsDiffer, Bool.or_eq_false_iff] at h
    obtain ⟨h1, h2⟩ := h
    have hx : ∀ y ∈ xs, x = y := by
      intro y hy
      by_contra hne
      have hTrue : xs.any (fun y => decide ¬ (x = y)) = true :=
        List.any_eq_true.mpr ⟨y, hy, by simpa using hne⟩
      rw [hTrue] at h1
      exact Bool.noConfusion h1
    intro a ha b hb
    rcases List.mem_cons.mp ha with rfl | ha2
    · rcases List.mem_cons.mp hb with rfl | hb2
      · rfl
      · exact hx b hb2
    · rcases List.mem_cons.mp hb with rfl | hb2
      · exact (hx a ha2).symm
      · exact ih h2 a ha2 b hb2

/-- With a nonempty host set and all token extractions succeeding, the
broadcaster reduces to the final comparison. -/
theorem sendCommandModel_ok (i : HostInput) (rest : List HostInput)
    (toks : List String) (hok : mapExcept hostToken (i :: rest) = Except.ok toks) :
    sendCommandModel (i :: rest) = reduceResult (i :: rest) toks := by
  unfold sendCommandModel
  rw [if_neg (by simp), hok]

/-- Case analysis of the final comparison in `__send_command`. -/
theorem reduceResult_cases (i : HostInput) (rest : List HostInput) (toks : List String) :
    reduceResult (i :: rest) toks =
      (if existsDiffer toks then Except.ok (1, SendRet.toks toks)
       else if okayCount (i :: rest) = (i :: rest).length then
         Except.ok (0, SendRet.str (lastToken toks))
       else Except.ok (1, SendRet.str "")) := by
  cases hED : existsDiffer toks with
  | true =>
    have h1 : ¬ ((-1 : Int) = ((okayCount (i :: rest) : Nat) : Int)) := by omega
    simp [reduceResult, hED, h1]
  | false =>
    rcases eq_or_ne (okayCount (i :: rest)) ((i :: rest).length) with hOC | hOC
    · have h1 : ((((i :: rest).length : Nat) : Int)) = ((okayCount (i :: rest) : Nat) : Int) := by
        omega
      simp [reduceResult, hED, h1, hOC]
    · have hlen : (i :: rest).length = rest.length + 1 := rfl
      have h1 : ¬ (((rest.length : Nat) : Int) + 1 = ((okayCount (i :: rest) : Nat) : Int)) := by
        omega
      have h2 : ¬ (((rest.length : Nat) : Int) + 1 = (-1 : Int)) := by omega
      have hOC2 : ¬ (okayCount (i :: rest) = rest.length + 1) := by omega
      simp [reduceResult, hED, h1, h2, hOC2]

/-! ### Claim theorems -/

/-- Claim C1 (amended): with N >= 1 hosts whose token extraction succeeds,
`__send_command` returns success exactly when all per-host tokens are equal
AND every host's message contains `DONE`; the success value is the shared
token; whenever two tokens differ the result is a failure carrying the full
token list; equal tokens without universal `DONE` yield a failure with the
empty string. -/
theorem C1_send_reduce (i : HostInput) (rest : List HostInput) (toks : List String)
    (hok : mapExcept hostToken (i :: rest) = Except.ok toks) :
    (sendCommandModel (i :: rest) = Except.ok (0, SendRet.str (lastToken toks)) ↔
      (existsDiffer toks = false ∧ okayCount (i :: rest) = (i :: rest).length))
  ∧ (existsDiffer toks = true →
      sendCommandModel (i :: rest) = Except.ok (1, SendRet.toks toks))
  ∧ (existsDiffer toks = false → okayCount (i :: rest) ≠ (i :: rest).length →
      sendCommandModel (i :: rest) = Except.ok (1, SendRet.str ""))
  ∧ (existsDiffer toks = false → ∀ t ∈ toks, t = lastToken toks) := by
  have hmodel := (sendCommandModel_ok i rest toks hok).trans (reduceResult_cases i rest toks)
  refine ⟨?_, ?_, ?_, ?_⟩
  · rw [hmodel]
    cases hED : existsDiffer toks with
    | true => simp [hED]
    | false =>
      rcases eq_or_ne (okayCount (i :: rest)) ((i :: rest).length) with hOC | hOC
      · simp [hED, hOC]
      · simp [hED, hOC]
  · intro hED
    rw [hmodel, hED]
    simp
  · intro hED hOC
    rw [hmodel, hED]
    have hOC2 : ¬ (okayCount (i :: rest) = rest.length + 1) := by simpa using hOC
    simp [hOC2]
  · intro hED t ht
    have htne : toks ≠ [] := by
      have hlen := mapExcept_length hostToken (i :: rest) toks hok
      intro hnil
      rw [hnil] at hlen
      simp at hlen
    exact existsDiffer_all_eq toks hED t ht (lastToken toks) (lastToken_mem toks htne)

/-- Claim C1 witness: two hosts answering `DONE ok` reduce to a success with
the shared token `DONE`. -/
theorem C1_send_reduce_witness :
    sendCommandModel
        [HostInput.mk ["DONE ok\n"] ReadEnd.timeout,
         HostInput.mk ["DONE ok\n"] ReadEnd.timeout]
      = Except.ok (0, SendRet.str "DONE") :=
  (C1_send_reduce (HostInput.mk ["DONE ok\n"] ReadEnd.timeout)
      [HostInput.mk ["DONE ok\n"] ReadEnd.timeout]
      ["DONE", "DONE"] rfl).1.mpr ⟨rfl, rfl⟩

/-- Claim C1 counterexample: a single host answering `ERROR bad` makes all
(one) per-host tokens trivially equal, yet the outcome is the failure
`(1, "")`, not a success carrying the shared token as the claim states. -/
theorem C1_counterexample :
    mapExcept hostToken [HostInput.mk ["ERROR bad\n"] ReadEnd.timeout]
        = Except.ok ["ERROR"]
  ∧ existsDiffer ["ERROR"] = false
  ∧ sendCommandModel [HostInput.mk ["ERROR bad\n"] ReadEnd.timeout]
        = Except.ok (1, SendRet.str "") :=
  ⟨rfl, rfl, rfl⟩

/-- Claim C8 (code bug): a host whose read loop hits the 10 s timeout gets
the message `["\n"]`, and `__send_command` then raises `IndexError` at
`dat[cam][0].split()[0]` (modelled by `Except.error`) instead of returning a
failure outcome to its caller. -/
theorem C8_timeout_raises :
    readMessage (HostInput.mk [] ReadEnd.timeout) = ["\n"]
  ∧ sendCommandModel [HostInput.mk [] ReadEnd.timeout] = Except.error () :=
  ⟨rfl, rfl⟩

/-- Claim C2 counterexample: starting from the fresh session (basename `""`),
`set_basename "abc"` under an all-failing broadcast environment returns the
broadcast error 1, yet the stored basename has already been changed to
`"abc"` — the commit happened before the broadcast, so a failed broadcast
does not leave the previous value in place. -/
theorem C2_counterexample :
    initState.caminfo.basename = ""
  ∧ (set_basename env1 initState "abc").1 = 1
  ∧ (set_basename env1 initState "abc").2.caminfo.basename = "abc" :=
  ⟨rfl, rfl, rfl⟩

/-- Claim C2 (amended): `set_basename`, called with a name having at least
one whitespace-split token and different from the current basename, commits
the new name to `CameraInfo` BEFORE broadcasting `basename <name>`; the call
returns the broadcast's error number, and the stored basename equals the new
name regardless of that outcome (a failed broadcast is not rolled back). -/
theorem C2_basename_commit (env : Nat → Int) (s : OpState) (name : String)
    (hne : pySplit name ≠ []) (hdiff : s.caminfo.basename ≠ name) :
    set_basename env s name =
      (env s.sent.length,
       { caminfo := { s.caminfo with basename := name },
         sent := s.sent ++ [mkCommand ["basename", name]] }) := by
  unfold set_basename
  rw [if_neg (by simp [hne]), if_pos hdiff]
  rfl

/-- Claim C2 witness: the counterexample state, derived from the amended
theorem at the concrete input. -/
theorem C2_basename_commit_witness :
    set_basename env1 initState "abc"
      = (1, { caminfo := { initCameraInfo with basename := "abc" },
              sent := ["basename abc\n"] }) :=
  C2_basename_commit env1 initState "abc" (by decide) (by decide)

/-- Claim C5 counterexample: from the fresh session (type `TEST`),
`set_type "BIAS"` — a known label different from the current type — succeeds
and stores the new code, but the broadcast trace stays empty: no key-set
command encoding `IMTYPE=<type>` is ever sent (the broadcast is commented
out in the source). -/
theorem C5_counterexample :
    caminfo_get_type initState.caminfo = some "TEST"
  ∧ typeLookup "BIAS" = some 1
  ∧ set_type initState "BIAS"
      = Except.ok (0, { caminfo := { initCameraInfo with imtype := 1 }, sent := [] }) :=
  ⟨rfl, rfl, rfl⟩

/-- Claim C5 (amended): `set_type` is a backward-compatibility stub that
performs no broadcast at all: with a known label different from the current
type it updates the stored image-type code directly and returns 0; with an
unknown label it returns error 1 and leaves the state unchanged; with the
current label it returns 0 unchanged. -/
theorem C5_set_type_no_broadcast (s : OpState) (t old_type : String)
    (hv : caminfo_get_type s.caminfo = some old_type) :
    (∀ e s2, set_type s t = Except.ok (e, s2) → s2.sent = s.sent)
  ∧ (∀ v, typeLookup t = some v → old_type ≠ t →
      set_type s t = Except.ok (0, { s with caminfo := { s.caminfo with imtype := v } }))
  ∧ (typeLookup t = none → old_type ≠ t → set_type s t = Except.ok (1, s))
  ∧ (old_type = t → set_type s t = Except.ok (0, s)) := by
  have hsome : ∀ v, typeLookup t = some v →
      caminfo_set_type s.caminfo t = (0, { s.caminfo with imtype := v }) := by
    intro v htl
    unfold caminfo_set_type
    rw [htl]
  have hnone : typeLookup t = none → caminfo_set_type s.caminfo t = (1, s.caminfo) := by
    intro htl
    unfold caminfo_set_type
    rw [htl]
  have hstep : set_type s t =
      (if old_type ≠ t then
        Except.ok ((caminfo_set_type s.caminfo t).1,
          { s with caminfo := (caminfo_set_type s.caminfo t).2 })
      else Except.ok (0, s)) := by
    unfold set_type
    rw [hv]
  refine ⟨?_, ?_, ?_, ?_⟩
  · intro e s2 h
    rw [hstep] at h
    by_cases hot : old_type ≠ t
    · rw [if_pos hot] at h
      injection h with h2
      simp only [Prod.mk.injEq] at h2
      rw [← h2.2]
    · rw [if_neg hot] at h
      injection h with h2
      simp only [Prod.mk.injEq] at h2
      rw [← h2.2]
  · intro v htl hot
    rw [hstep, if_pos hot, hsome v htl]
  · intro htl hot
    rw [hstep, if_pos hot, hnone htl]
  · intro hot
    rw [hstep, if_neg (by simp [hot])]

/-- Claim C5 witness: setting type `BIAS` from the fresh session, derived
from the amended theorem with its hypotheses discharged concretely. -/
theorem C5_set_type_no_broadcast_witness :
    set_type initState "BIAS"
      = Except.ok (0, { initState with
          caminfo := { initState.caminfo with imtype := 1 } }) :=
  (C5_set_type_no_broadcast initState "BIAS" "TEST" rfl).2.1 1 rfl (by decide)

/-- Claim C6 counterexample: two consecutive `set_power "ON"` calls under an
all-succeeding environment both return success and both broadcast `POWERON`:
the second call, whose requested state equals the state any recording would
hold, neither fails nor skips the broadcast, and the session state still
carries no power field (the `CameraInfo` is untouched). -/
theorem C6_counterexample :
    (set_power env0 initState "ON").1 = some 0
  ∧ (set_power env0 (set_power env0 initState "ON").2 "ON").1 = some 0
  ∧ (set_power env0 (set_power env0 initState "ON").2 "ON").2.sent
      = ["POWERON\n", "POWERON\n"]
  ∧ (set_power env0 (set_power env0 initState "ON").2 "ON").2.caminfo = initCameraInfo :=
  ⟨rfl, rfl, rfl, rfl⟩

/-- Claim C6 (amended): `set_power` consults and records no power state:
`"ON"` always broadcasts `POWERON` and `"OFF"` always broadcasts `POWEROFF`,
returning the broadcast's error number, with the `CameraInfo` never touched
(it has no power field); any other argument returns `None` with no
broadcast. -/
theorem C6_set_power_stateless (env : Nat → Int) (s : OpState) :
    set_power env s "ON"
      = (some (env s.sent.length), { s with sent := s.sent ++ [mkCommand ["POWERON"]] })
  ∧ set_power env s "OFF"
      = (some (env s.sent.length), { s with sent := s.sent ++ [mkCommand ["POWEROFF"]] })
  ∧ (∀ p : String, p ≠ "ON" → p ≠ "OFF" → set_power env s p = (none, s))
  ∧ (set_power env s "ON").2.caminfo = s.caminfo
  ∧ (set_power env s "OFF").2.caminfo = s.caminfo := by
  refine ⟨rfl, rfl, ?_, rfl, rfl⟩
  intro p h1 h2
  unfold set_power
  rw [if_neg h1, if_neg h2]

/-- Claim C6 witness: an unrecognized power argument returns `None` and
leaves the state unchanged, by the amended theorem at a concrete input. -/
theorem C6_set_power_stateless_witness :
    set_power env0 initState "on" = (none, initState) :=
  (C6_set_power_stateless env0 initState).2.2.1 "on" (by decide) (by decide)

/-- Claim C7 counterexample: `expose(30, 5)` from the fresh session stores
`exptime = 30` and sends exactly `expose 5\n`, but the stored iteration
count remains 1 — `Interface.expose` never writes the iteration count into
the session state, so it does not equal the given 5 after dispatch. -/
theorem C7_counterexample :
    (expose env0 initState 30 5).2.caminfo.iterations = 1
  ∧ ¬ ((expose env0 initState 30 5).2.caminfo.iterations = 5)
  ∧ (expose env0 initState 30 5).2.caminfo.exptime = 30
  ∧ (expose env0 initState 30 5).2.sent = ["expose 5\n"] :=
  ⟨rfl, by decide, rfl, rfl⟩

/-- Claim C7 (amended): for exptime >= 0 and iterations > 0,
`expose(exptime, iterations)` stores `exposure_time = exptime` before
dispatch and issues exactly one broadcast whose command line is
`expose <iterations>` terminated by a newline; the stored iteration count is
left unchanged rather than set to the argument. -/
theorem C7_expose_behavior (env : Nat → Int) (s : OpState) (exptime iterations : Int)
    (hexp : 0 ≤ exptime) (hiter : 0 < iterations) :
    expose env s exptime iterations
      = (env s.sent.length,
         { caminfo := { s.caminfo with exptime := exptime },
           sent := s.sent ++ [mkCommand ["expose", toString iterations]] })
  ∧ (expose env s exptime iterations).2.caminfo.iterations = s.caminfo.iterations := by
  have hstep : expose env s exptime iterations
      = (env s.sent.length,
         { caminfo := { s.caminfo with exptime := exptime },
           sent := s.sent ++ [mkCommand ["expose", toString iterations]] }) := by
    unfold expose caminfo_set_exptime
    rw [if_pos hexp]
    rfl
  exact ⟨hstep, by rw [hstep]⟩

/-- Claim C7 witness: `expose(30, 5)` by the amended theorem at the fresh
session, with the hypotheses discharged concretely. -/
theorem C7_expose_behavior_witness :
    expose env0 initState 30 5
      = (0, { caminfo := { initCameraInfo with exptime := 30 },
              sent := ["expose 5\n"] }) :=
  (C7_expose_behavior env0 initState 30 5 (by decide) (by decide)).1

/-- Claim C9: when the requested mode differs from the current one and the
broadcast succeeds, `set_mode` broadcasts `mode <m>` once and commits the
new mode; calling it again with the same mode returns success with no
further broadcast, so two successive calls issue exactly one broadcast. -/
theorem C9_set_mode_once (env : Nat → Int) (s : OpState) (m : String)
    (hdiff : s.caminfo.mode ≠ m) (hok : env s.sent.length = 0) :
    set_mode env s m
      = (0, { caminfo := { s.caminfo with mode := m },
              sent := s.sent ++ [mkCommand ["mode", m]] })
  ∧ set_mode env (set_mode env s m).2 m = (0, (set_mode env s m).2)
  ∧ (set_mode env (set_mode env s m).2 m).2.sent.length = s.sent.length + 1 := by
  have h1 : set_mode env s m
      = (0, { caminfo := { s.caminfo with mode := m },
              sent := s.sent ++ [mkCommand ["mode", m]] }) := by
    unfold set_mode doSend caminfo_set_mode
    rw [if_pos hdiff]
    simp [hok]
  have h2 : set_mode env (set_mode env s m).2 m = (0, (set_mode env s m).2) := by
    rw [h1]
    unfold set_mode
    rw [if_neg (by simp)]
  refine ⟨h1, h2, ?_⟩
  rw [h2, h1]
  simp

/-- Claim C9 witness: setting mode `RAW` twice from the fresh session under
an all-succeeding environment. -/
theorem C9_set_mode_once_witness :
    set_mode env0 (set_mode env0 initState "RAW").2 "RAW"
      = (0, (set_mode env0 initState "RAW").2) :=
  (C9_set_mode_once env0 initState "RAW" (by decide) rfl).2.1

/-- Claim C10: a string consisting only of whitespace characters has no
whitespace-split tokens, so `set_basename` rejects it with error code 1,
performs no broadcast, and leaves the whole state (basename included)
unchanged — exactly as it rejects the empty string. -/
theorem C10_ws_basename (env : Nat → Int) (s : OpState) (str : String)
    (hws : ∀ c ∈ str.data, isPyWhitespace c = true) :
    set_basename env s str = (1, s) := by
  have h : pySplit str = [] := pySplit_ws str hws
  unfold set_basename
  rw [h]
  rfl

/-- Claim C10 witness: the single-space basename is rejected with error 1
and no state change, by the theorem at a concrete input. -/
theorem C10_ws_basename_witness : set_basename env0 initState " " = (1, initState) :=
  C10_ws_basename env0 initState " " (by decide)

/-- Values below 64 format as 6-character binary strings with the right
numeric value. -/
theorem pyFormatB6_spec : ∀ n : Nat, n < 64 →
    (pyFormatB 6 n).data.length = 6
  ∧ (∀ ch ∈ (pyFormatB 6 n).data, ch = '0' ∨ ch = '1')
  ∧ bitsVal (pyFormatB 6 n).data = n := by decide

/-- Powers of two below 2^16 format as 16-character binary strings with the
right numeric value. -/
theorem pyFormatB16_pow : ∀ k : Nat, k < 16 →
    (pyFormatB 16 (2 ^ k)).data.length = 16
  ∧ (∀ ch ∈ (pyFormatB 16 (2 ^ k)).data, ch = '0' ∨ ch = '1')
  ∧ bitsVal (pyFormatB 16 (2 ^ k)).data = 2 ^ k := by decide

/-- Unfolding `__make_bitstring` at the `driver` kind. -/
theorem mbs_driver (c : Int) :
    make_bitstring "driver" c = pyFormatB 6 ((c % 24).toNat) := rfl

/-- Unfolding `__make_bitstring` at the `dnl` kind. -/
theorem mbs_dnl (c : Int) : make_bitstring "dnl" c = pyFormatB 6 24 := rfl

/-- Unfolding `__make_bitstring` at the `hvlc` kind. -/
theorem mbs_hvlc (c : Int) :
    make_bitstring "hvlc" c = pyFormatB 6 ((32 + c % 24).toNat) := rfl

/-- Unfolding `__make_bitstring` at the `hvhc` kind. -/
theorem mbs_hvhc (c : Int) :
    make_bitstring "hvhc" c = pyFormatB 6 ((56 + c % 6).toNat) := rfl

/-- Unfolding `__make_bitstring` at the `adc` kind. -/
theorem mbs_adc (c : Int) :
    make_bitstring "adc" c = pyFormatB 16 (2 ^ (c % 16).toNat) := rfl

/-- Unfolding `__make_bitstring` at the `null` kind. -/
theorem mbs_null (c : Int) :
    make_bitstring "null" c
      = (if c = 16 then pyFormatB 16 0 else pyFormatB 6 25) := rfl

/-- Unfolding `__make_bitstring` at an unrecognized kind. -/
theorem mbs_other (nm : String) (c : Int)
    (h : pyLower nm ∉ (["driver", "dnl", "hvlc", "hvhc", "adc", "null"] : List String)) :
    make_bitstring nm c = "0" := by
  have h1 : ¬ (pyLower nm = "driver") := fun he => h (by simp [he])
  have h2 : ¬ (pyLower nm = "dnl") := fun he => h (by simp [he])
  have h3 : ¬ (pyLower nm = "hvlc") := fun he => h (by simp [he])
  have h4 : ¬ (pyLower nm = "hvhc") := fun he => h (by simp [he])
  have h5 : ¬ (pyLower nm = "adc") := fun he => h (by simp [he])
  have h6 : ¬ (pyLower nm = "null") := fun he => h (by simp [he])
  unfold make_bitstring
  rw [if_neg h1, if_neg h2, if_neg h3, if_neg h4, if_neg h5, if_neg h6]

/-- Claim C3: `__make_bitstring` returns, for kind `driver`, the 6-character
zero-padded binary string of `c mod 24`; for `dnl` the 6-bit string of 24;
for `hvlc` the 6-bit string of `32 + (c mod 24)`; for `hvhc` the 6-bit
string of `56 + (c mod 6)`; for `adc` the 16-bit one-hot string
`2 ^ (c mod 16)`; for `null` the 16-bit all-zero string when `c = 16` and
the 6-bit string of 25 otherwise; and the single character `"0"` for any
unrecognized kind. -/
theorem C3_make_bitstring (c : Int) :
    ((make_bitstring "driver" c).data.length = 6
      ∧ (∀ ch ∈ (make_bitstring "driver" c).data, ch = '0' ∨ ch = '1')
      ∧ bitsVal (make_bitstring "driver" c).data = (c % 24).toNat)
  ∧ ((make_bitstring "dnl" c).data.length = 6
      ∧ (∀ ch ∈ (make_bitstring "dnl" c).data, ch = '0' ∨ ch = '1')
      ∧ bitsVal (make_bitstring "dnl" c).data = 24)
  ∧ ((make_bitstring "hvlc" c).data.length = 6
      ∧ (∀ ch ∈ (make_bitstring "hvlc" c).data, ch = '0' ∨ ch = '1')
      ∧ bitsVal (make_bitstring "hvlc" c).data = 32 + (c % 24).toNat)
  ∧ ((make_bitstring "hvhc" c).data.length = 6
      ∧ (∀ ch ∈ (make_bitstring "hvhc" c).data, ch = '0' ∨ ch = '1')
      ∧ bitsVal (make_bitstring "hvhc" c).data = 56 + (c % 6).toNat)
  ∧ ((make_bitstring "adc" c).data.length = 16
      ∧ (∀ ch ∈ (make_bitstring "adc" c).data, ch = '0' ∨ ch = '1')
      ∧ bitsVal (make_bitstring "adc" c).data = 2 ^ (c % 16).toNat)
  ∧ ((c = 16 → (make_bitstring "null" c).data = List.replicate 16 '0')
      ∧ (c ≠ 16 → (make_bitstring "null" c).data.length = 6
          ∧ bitsVal (make_bitstring "null" c).data = 25))
  ∧ (∀ nm : String,
      pyLower nm ∉ (["driver", "dnl", "hvlc", "hvhc", "adc", "null"] : List String) →
      make_bitstring nm c = "0") := by
  have h24a : 0 ≤ c % 24 := Int.emod_nonneg c (by norm_num)
  have h24b : c % 24 < 24 := Int.emod_lt_of_pos c (by norm_num)
  have h6a : 0 ≤ c % 6 := Int.emod_nonneg c (by norm_num)
  have h6b : c % 6 < 6 := Int.emod_lt_of_pos c (by norm_num)
  have h16a : 0 ≤ c % 16 := Int.emod_nonneg c (by norm_num)
  have h16b : c % 16 < 16 := Int.emod_lt_of_pos c (by norm_num)
  refine ⟨?_, ?_, ?_, ?_, ?_, ⟨?_, ?_⟩, ?_⟩
  · rw [mbs_driver]
    exact pyFormatB6_spec ((c % 24).toNat) (by omega)
  · rw [mbs_dnl]
    exact pyFormatB6_spec 24 (by norm_num)
  · rw [mbs_hvlc]
    have he : (32 + c % 24).toNat = 32 + (c % 24).toNat := by omega
    rw [he]
    exact pyFormatB6_spec (32 + (c % 24).toNat) (by omega)
  · rw [mbs_hvhc]
    have he : (56 + c % 6).toNat = 56 + (c % 6).toNat := by omega
    rw [he]
    exact pyFormatB6_spec (56 + (c % 6).toNat) (by omega)
  · rw [mbs_adc]
    exact pyFormatB16_pow ((c % 16).toNat) (by omega)
  · intro h16
    rw [mbs_null, if_pos h16]
    decide
  · intro h16
    rw [mbs_null, if_neg h16]
    exact ⟨by decide, by decide⟩
  · intro nm h
    exact mbs_other nm c h

/-- Claim C3 witness: concrete instances of each hypothetical part —
`driver` at channel 40 encodes 16, `null` at 16 is the 16-bit zero string,
`null` at 17 is 6 bits wide, and an unknown kind degrades to `"0"`. -/
theorem C3_make_bitstring_witness :
    bitsVal (make_bitstring "driver" 40).data = ((40 : Int) % 24).toNat
  ∧ (make_bitstring "null" 16).data = List.replicate 16 '0'
  ∧ (make_bitstring "null" 17).data.length = 6
  ∧ make_bitstring "Foo" 3 = "0" :=
  ⟨(C3_make_bitstring 40).1.2.2,
   (C3_make_bitstring 16).2.2.2.2.2.1.1 rfl,
   ((C3_make_bitstring 17).2.2.2.2.2.1.2 (by decide)).1,
   (C3_make_bitstring 3).2.2.2.2.2.2 "Foo" (by decide)⟩

/-- Folding the per-bit parameter writes accumulates one `setp BitLevel`
command per bit and never touches the `CameraInfo`. -/
theorem write_bits_fold (env : Nat → Int) (s : OpState) (l : List Char) :
    (l.foldl (fun st c => (set_param env st "BitLevel" (pyIntOfChar c + 1)).2) s).sent
      = s.sent ++ l.map (fun c => mkCommand ["setp", "BitLevel", toString (pyIntOfChar c + 1)])
  ∧ (l.foldl (fun st c => (set_param env st "BitLevel" (pyIntOfChar c + 1)).2) s).caminfo
      = s.caminfo := by
  induction l generalizing s with
  | nil => simp
  | cons c cs ih =>
    simp only [List.foldl_cons, List.map_cons]
    have hone : (set_param env s "BitLevel" (pyIntOfChar c + 1)).2
        = { s with sent := s.sent ++ [mkCommand ["setp", "BitLevel", toString (pyIntOfChar c + 1)]] } :=
      rfl
    rw [hone]
    have h := ih { s with sent := s.sent ++ [mkCommand ["setp", "BitLevel", toString (pyIntOfChar c + 1)]] }
    refine ⟨?_, h.2⟩
    rw [h.1]
    simp

/-- Claim C4: for every non-empty bitstring of binary characters,
`__write_bits` emits exactly one parameter-set broadcast per character,
iterating from the rightmost bit to the leftmost, each setting `BitLevel`
to the bit's numeric value plus 1; the session settings are untouched. -/
theorem C4_write_bits (env : Nat → Int) (s : OpState) (bits : String)
    (hne : bits.data ≠ []) (hb : ∀ ch ∈ bits.data, ch = '0' ∨ ch = '1') :
    (write_bits env s bits).sent
      = s.sent ++ bits.data.reverse.map
          (fun ch => mkCommand ["setp", "BitLevel", toString (pyIntOfChar ch + 1)])
  ∧ (write_bits env s bits).sent.length = s.sent.length + bits.data.length
  ∧ (write_bits env s bits).caminfo = s.caminfo := by
  have h := write_bits_fold env s bits.data.reverse
  unfold write_bits
  refine ⟨h.1, ?_, h.2⟩
  rw [h.1]
  simp

/-- Claim C4 witness: writing the hard-coded trailer `"0100"` emits its four
bits right to left as `BitLevel` values 1, 1, 2, 1. -/
theorem C4_write_bits_witness :
    (write_bits env0 initState "0100").sent
      = initState.sent ++ "0100".data.reverse.map
          (fun ch => mkCommand ["setp", "BitLevel", toString (pyIntOfChar ch + 1)]) :=
  (C4_write_bits env0 initState "0100" (by decide) (by decide)).1

end Pycamerad
